import Mathlib

/-!
Formal model of the Vulkan graphics device bootstrap in `engine-rs`
(`crates/graphics/src/vulkan/device.rs` and `crates/launcher/src/main.rs`).

Modelling conventions: fallible Vulkan calls are modelled with `Except` or
`Option`; a Rust panic is modelled as `Option.none`; the `u32` machine
integers are modelled as `Nat` with explicit `% 2^32` where overflow can
occur; opaque Vulkan handles are identified by their enumeration index.
-/

namespace EngineRs

/-- The value `u32::MAX`. -/
def u32Max : Nat := 4294967295

/-- Model of `vk::Extent2D` (width and height are `u32`). -/
structure Extent2D where
  width : Nat
  height : Nat
  deriving DecidableEq, Repr

/-- The fields of `vk::SurfaceCapabilitiesKHR` read by `create_swapchain`. -/
structure SurfaceCapabilities where
  min_image_count : Nat
  max_image_count : Nat
  current_extent : Extent2D
  min_image_extent : Extent2D
  max_image_extent : Extent2D
  deriving DecidableEq, Repr

/-- Rust `u32::clamp(self, min, max)`: it asserts `min <= max` (the panic is
modelled as `none`) and otherwise clamps `self` into `[min, max]`. -/
def rustClamp (x lo hi : Nat) : Option Nat :=
  if lo > hi then none
  else if x < lo then some lo
  else if x > hi then some hi
  else some x

/-- The swapchain extent selection of `create_swapchain`
(device.rs, lines 317-330): use `current_extent` verbatim whenever its width
is not `u32::MAX`, otherwise clamp the requested width and height into the
surface's min/max image extent. -/
def choose_extent (caps : SurfaceCapabilities) (width height : Nat) : Option Extent2D :=
  if caps.current_extent.width ≠ u32Max then
    some caps.current_extent
  else do
    let w ← rustClamp width caps.min_image_extent.width caps.max_image_extent.width
    let h ← rustClamp height caps.min_image_extent.height caps.max_image_extent.height
    some ⟨w, h⟩

/-- The swapchain image count selection of `create_swapchain`
(device.rs, lines 332-338): `(min_image_count + 1).min(max_image_count)` with
a `max_image_count` of `0` replaced by `u32::MAX`. The `+ 1` is `u32`
arithmetic, hence the `% 2^32`. -/
def image_count (caps : SurfaceCapabilities) : Nat :=
  Nat.min ((caps.min_image_count + 1) % 4294967296)
    (if caps.max_image_count > 0 then caps.max_image_count else u32Max)

/-- The `vk::Format` values distinguished by the swapchain format policy. -/
inductive VkFormat where
  | b8g8r8a8Srgb
  | otherFormat
  deriving DecidableEq, Repr

/-- The `vk::ColorSpaceKHR` values distinguished by the swapchain format policy. -/
inductive VkColorSpace where
  | srgbNonlinear
  | otherSpace
  deriving DecidableEq, Repr

/-- Model of `vk::SurfaceFormatKHR`. -/
structure SurfaceFormatKHR where
  format : VkFormat
  color_space : VkColorSpace
  deriving DecidableEq, Repr

/-- The predicate of the `find` in `create_swapchain` (device.rs, lines
311-314): an 8-bit BGRA sRGB format with non-linear sRGB color space. -/
def preferred_surface_format (f : SurfaceFormatKHR) : Bool :=
  f.format == VkFormat.b8g8r8a8Srgb && f.color_space == VkColorSpace.srgbNonlinear

/-- The surface format selection of `create_swapchain` (device.rs, lines
309-315): `formats.iter().find(pred).unwrap_or(&formats[0])`. Rust evaluates
the `unwrap_or` argument eagerly, so `&formats[0]` is indexed first; on an
empty list this is an out-of-bounds panic, modelled as `none`. -/
def select_surface_format (formats : List SurfaceFormatKHR) : Option SurfaceFormatKHR :=
  match formats.get? 0 with
  | none => none
  | some fallback => some ((formats.find? preferred_surface_format).getD fallback)

/-- The pure core of `create_swapchain`: the chosen surface format, extent and
image count (the subsequent `vkCreateSwapchainKHR` call consumes these).
`none` models a panic in one of the selections. -/
def create_swapchain_core (caps : SurfaceCapabilities) (formats : List SurfaceFormatKHR)
    (width height : Nat) : Option (SurfaceFormatKHR × Extent2D × Nat) := do
  let fmt ← select_surface_format formats
  let ext ← choose_extent caps width height
  some (fmt, ext, image_count caps)

/-- The constant `MAX_FRAMES_IN_FLIGHT` (device.rs, line 8). -/
def MAX_FRAMES_IN_FLIGHT : Nat := 3

/-- A Vulkan semaphore handle (opaque). -/
inductive VkSemaphore where
  | mk
  deriving DecidableEq, Repr

/-- A Vulkan fence together with its signaled state. -/
structure VkFence where
  signaled : Bool
  deriving DecidableEq, Repr

/-- Model of `vk::FenceCreateInfo`: whether `FenceCreateFlags::SIGNALED` is set. -/
structure FenceCreateInfo where
  signaled : Bool
  deriving DecidableEq, Repr

/-- The `fence_info` of `create_sync_objects` (device.rs, line 488):
`FenceCreateInfo::default().flags(vk::FenceCreateFlags::SIGNALED)`. -/
def fence_create_info : FenceCreateInfo := { signaled := true }

/-- Model of `vkCreateFence`: the fence starts in the state requested by the flags. -/
def create_fence (info : FenceCreateInfo) : VkFence := { signaled := info.signaled }

/-- The function `create_sync_objects` (device.rs, lines 483-505): one image-available
semaphore, one render-finished semaphore and one in-flight fence per
iteration of a loop over `0..MAX_FRAMES_IN_FLIGHT`. -/
def create_sync_objects : List VkSemaphore × List VkSemaphore × List VkFence :=
  ((List.range MAX_FRAMES_IN_FLIGHT).map fun _ => VkSemaphore.mk,
   (List.range MAX_FRAMES_IN_FLIGHT).map fun _ => VkSemaphore.mk,
   (List.range MAX_FRAMES_IN_FLIGHT).map fun _ => create_fence fence_create_info)

/-- Waiting on a fence blocks exactly when it is unsignaled. -/
def fence_wait_blocks (f : VkFence) : Bool := !f.signaled

lemma natMaxIf (m n : Nat) : Nat.max m n = if m < n then n else m := by
  split_ifs with h
  · exact Nat.max_eq_right (Nat.le_of_lt h)
  · exact Nat.max_eq_left (Nat.le_of_not_lt h)

lemma natMinIf (m n : Nat) : Nat.min m n = if m < n then m else n := by
  split_ifs with h
  · exact Nat.min_eq_left (Nat.le_of_lt h)
  · exact Nat.min_eq_right (Nat.le_of_not_lt h)

lemma rustClamp_eq {x lo hi : Nat} (h : lo ≤ hi) :
    rustClamp x lo hi = some (Nat.max lo (Nat.min x hi)) := by
  unfold rustClamp
  rw [natMaxIf, natMinIf]
  split_ifs <;> first
    | omega
    | (refine congrArg some ?_; omega)

/-- C3: swapchain extent selection returns `current_extent` verbatim whenever
its width differs from `u32::MAX`, and otherwise the requested width and
height clamped componentwise into `[min_image_extent, max_image_extent]`. -/
theorem extent_selection_spec (caps : SurfaceCapabilities) (w h : Nat) :
    (caps.current_extent.width ≠ u32Max →
      choose_extent caps w h = some caps.current_extent) ∧
    (caps.current_extent.width = u32Max →
      caps.min_image_extent.width ≤ caps.max_image_extent.width →
      caps.min_image_extent.height ≤ caps.max_image_extent.height →
      choose_extent caps w h =
        some ⟨Nat.max caps.min_image_extent.width (Nat.min w caps.max_image_extent.width),
              Nat.max caps.min_image_extent.height (Nat.min h caps.max_image_extent.height)⟩) := by
  constructor
  · intro hne
    simp [choose_extent, hne]
  · intro heq hw hh
    simp [choose_extent, heq, rustClamp_eq hw, rustClamp_eq hh, Option.bind]

/-- C3 witness: a surface with a defined current extent keeps it verbatim, and
the spec scenario `current=(u32::MAX,u32::MAX)`, `min=(100,100)`,
`max=(4000,4000)`, requested `(50,6000)` yields `(100,4000)`. -/
theorem extent_selection_spec_witness :
    choose_extent ⟨2, 0, ⟨640, 480⟩, ⟨100, 100⟩, ⟨4000, 4000⟩⟩ 50 6000 = some ⟨640, 480⟩ ∧
    choose_extent ⟨2, 0, ⟨u32Max, u32Max⟩, ⟨100, 100⟩, ⟨4000, 4000⟩⟩ 50 6000 = some ⟨100, 4000⟩ := by
  constructor
  · exact (extent_selection_spec ⟨2, 0, ⟨640, 480⟩, ⟨100, 100⟩, ⟨4000, 4000⟩⟩ 50 6000).1
      (by decide)
  · have := (extent_selection_spec ⟨2, 0, ⟨u32Max, u32Max⟩, ⟨100, 100⟩, ⟨4000, 4000⟩⟩ 50 6000).2
      rfl (by decide) (by decide)

    simpa using this

/-- C4: for every surface-capabilities report (with a `u32`-representable
`min_image_count`, so that the `+ 1` does not wrap), the chosen swapchain
image count is `min_image_count + 1` capped at `max_image_count` when the cap
is nonzero, and uncapped when the cap is `0`. -/
theorem image_count_spec (caps : SurfaceCapabilities)
    (hmin : caps.min_image_count < u32Max) (hmax : caps.max_image_count ≤ u32Max) :
    image_count caps =
      (if caps.max_image_count = 0 then caps.min_image_count + 1
       else Nat.min (caps.min_image_count + 1) caps.max_image_count) := by
  unfold image_count u32Max at *
  rw [natMinIf]
  split_ifs <;> first
    | omega
    | (rw [natMinIf]; split_ifs <;> omega)

/-- C4 witness: `min=2, max=0` yields 3 and `min=2, max=2` yields 2. -/
theorem image_count_spec_witness :
    image_count ⟨2, 0, ⟨0, 0⟩, ⟨0, 0⟩, ⟨0, 0⟩⟩ = 3 ∧
    image_count ⟨2, 2, ⟨0, 0⟩, ⟨0, 0⟩, ⟨0, 0⟩⟩ = 2 := by
  constructor
  · have := image_count_spec ⟨2, 0, ⟨0, 0⟩, ⟨0, 0⟩, ⟨0, 0⟩⟩ (by decide) (by decide)
    simpa using this
  · have := image_count_spec ⟨2, 2, ⟨0, 0⟩, ⟨0, 0⟩, ⟨0, 0⟩⟩ (by decide) (by decide)
    simpa using this

/-- C9: `create_sync_objects` creates exactly `MAX_FRAMES_IN_FLIGHT = 3`
image-available semaphores, 3 render-finished semaphores and 3 in-flight
fences, every fence is created in the signaled state, and therefore the first
wait on each fence does not block. -/
theorem sync_objects_spec :
    create_sync_objects.1.length = MAX_FRAMES_IN_FLIGHT ∧
    create_sync_objects.2.1.length = MAX_FRAMES_IN_FLIGHT ∧
    create_sync_objects.2.2.length = MAX_FRAMES_IN_FLIGHT ∧
    MAX_FRAMES_IN_FLIGHT = 3 ∧
    create_sync_objects.2.2.all (fun f => f.signaled) = true ∧
    create_sync_objects.2.2.all (fun f => !fence_wait_blocks f) = true := by
  decide

/-- C10: the surface-format fallback of `create_swapchain` indexes `formats[0]`,
so an empty supported-format list panics (out of bounds, modelled as `none`)
instead of returning an error, for every capability report and requested size;
on a non-empty list the format selection always succeeds. -/
theorem swapchain_empty_formats_spec :
    (∀ (caps : SurfaceCapabilities) (w h : Nat),
      create_swapchain_core caps [] w h = none) ∧
    select_surface_format [] = none ∧
    (∀ formats : List SurfaceFormatKHR, formats ≠ [] →
      (select_surface_format formats).isSome = true) := by
  refine ⟨fun caps w h => rfl, rfl, fun formats hne => ?_⟩
  match formats with
  | [] => exact absurd rfl hne
  | f :: fs => simp [select_surface_format]

/-- C10 witness: a singleton non-preferred format list makes the selection
succeed (with the fallback), while the empty list panics. -/
theorem swapchain_empty_formats_spec_witness :
    create_swapchain_core ⟨2, 0, ⟨640, 480⟩, ⟨0, 0⟩, ⟨0, 0⟩⟩ [] 640 480 = none ∧
    (select_surface_format [⟨VkFormat.otherFormat, VkColorSpace.otherSpace⟩]).isSome = true := by
  refine ⟨swapchain_empty_formats_spec.1 ⟨2, 0, ⟨640, 480⟩, ⟨0, 0⟩, ⟨0, 0⟩⟩ 640 480, ?_⟩
  exact swapchain_empty_formats_spec.2.2 [⟨VkFormat.otherFormat, VkColorSpace.otherSpace⟩]
    (by decide)

/-! ## Teardown (`impl Drop for VulkanGraphicsDevice`, device.rs lines 630-675) -/

/-- The kinds of objects destroyed during teardown. -/
inductive TeardownObj where
  | semaphore
  | fence
  | commandPool
  | framebuffer
  | pipeline
  | pipelineLayout
  | renderPass
  | imageView
  | swapchain
  | logicalDevice
  | surface
  | debugMessenger
  | vkInstance
  deriving DecidableEq, Repr

/-- One action of the teardown sequence. -/
inductive DropEvent where
  | waitIdle
  | destroy (obj : TeardownObj)
  deriving DecidableEq, Repr

/-- The handle counts held by a fully constructed `VulkanGraphicsDevice`
(the vector-valued fields; all remaining fields are single handles). -/
structure DeviceHandles where
  image_available_count : Nat
  render_finished_count : Nat
  in_flight_count : Nat
  framebuffer_count : Nat
  image_view_count : Nat
  deriving DecidableEq, Repr

/-- The `Drop` implementation as an action trace. The `wait_idle_failed`
argument is the outcome of `device_wait_idle`, whose `Result` the code
discards with `let _ = ...`: the trace does not depend on it, and teardown
never returns an error (the function has no `Except` in its type). -/
def drop_run (wait_idle_failed : Bool) (s : DeviceHandles) : List DropEvent :=
  let _ := wait_idle_failed
  [DropEvent.waitIdle]
  ++ List.replicate s.image_available_count (DropEvent.destroy .semaphore)
  ++ List.replicate s.render_finished_count (DropEvent.destroy .semaphore)
  ++ List.replicate s.in_flight_count (DropEvent.destroy .fence)
  ++ [DropEvent.destroy .commandPool]
  ++ List.replicate s.framebuffer_count (DropEvent.destroy .framebuffer)
  ++ [DropEvent.destroy .pipeline, DropEvent.destroy .pipelineLayout,
      DropEvent.destroy .renderPass]
  ++ List.replicate s.image_view_count (DropEvent.destroy .imageView)
  ++ [DropEvent.destroy .swapchain, DropEvent.destroy .logicalDevice,
      DropEvent.destroy .surface, DropEvent.destroy .debugMessenger,
      DropEvent.destroy .vkInstance]

/-- The teardown order exactly as the spec words it: wait for device idle
first, then destroy sync primitives, command pool, framebuffers, pipeline,
pipeline layout, render pass, image views, swapchain, logical device,
surface, diagnostic callback, instance. -/
def spec_teardown_order (s : DeviceHandles) : List DropEvent :=
  let sync_primitives :=
    List.replicate s.image_available_count (DropEvent.destroy .semaphore)
    ++ List.replicate s.render_finished_count (DropEvent.destroy .semaphore)
    ++ List.replicate s.in_flight_count (DropEvent.destroy .fence)
  [DropEvent.waitIdle]
  ++ sync_primitives
  ++ [DropEvent.destroy .commandPool]
  ++ List.replicate s.framebuffer_count (DropEvent.destroy .framebuffer)
  ++ [DropEvent.destroy .pipeline]
  ++ [DropEvent.destroy .pipelineLayout]
  ++ [DropEvent.destroy .renderPass]
  ++ List.replicate s.image_view_count (DropEvent.destroy .imageView)
  ++ [DropEvent.destroy .swapchain]
  ++ [DropEvent.destroy .logicalDevice]
  ++ [DropEvent.destroy .surface]
  ++ [DropEvent.destroy .debugMessenger]
  ++ [DropEvent.destroy .vkInstance]

/-- C5: for every device state and every outcome of the device-idle wait,
teardown first waits for device idle and then destroys resources in the
spec's strict reverse order; the wait-idle error is swallowed (the trace is
independent of it) and teardown never propagates an error. -/
theorem teardown_order_spec (b b' : Bool) (s : DeviceHandles) :
    drop_run b s = spec_teardown_order s ∧
    (drop_run b s).head? = some DropEvent.waitIdle ∧
    drop_run b s = drop_run b' s := by
  refine ⟨?_, rfl, rfl⟩
  unfold drop_run spec_teardown_order
  simp [List.append_assoc]

/-! ## Construction (`VulkanGraphicsDevice::new`, device.rs lines 66-135, and
`create_graphics_pipeline`, lines 507-615) -/

/-- The kinds of resources created during construction. -/
inductive ResKind where
  | vkInstance
  | debugMessenger
  | surface
  | logicalDevice
  | swapchain
  | imageView
  | renderPass
  | shaderModule
  | pipelineLayout
  | pipeline
  | framebuffer
  | commandPool
  | commandBuffer
  | semaphore
  | fence
  deriving DecidableEq, Repr

/-- One action of the construction sequence. -/
inductive InitEvent where
  | create (k : ResKind)
  | destroy (k : ResKind)
  | waitIdle
  deriving DecidableEq, Repr

/-- Success or failure of each fallible call performed by `new` (in program
order), plus the number of swapchain images reported by the device. A failing
creation loop is modelled as failing at its first iteration; the prefix it
may have created before failing does not affect any property proved below. -/
structure InitOutcomes where
  entry_ok : Bool
  instance_ok : Bool
  messenger_ok : Bool
  surface_ok : Bool
  select_ok : Bool
  device_ok : Bool
  swapchain_ok : Bool
  views_ok : Bool
  render_pass_ok : Bool
  vert_ok : Bool
  frag_ok : Bool
  layout_ok : Bool
  pipeline_ok : Bool
  framebuffers_ok : Bool
  pool_ok : Bool
  buffers_ok : Bool
  sync_ok : Bool
  images : Nat
  deriving DecidableEq, Repr

/-- Sequencing of two fallible construction steps: the second runs only when
the first succeeded (the `?` operator). -/
def andThen (s t : List InitEvent × Bool) : List InitEvent × Bool :=
  if s.2 then (s.1 ++ t.1, t.2) else s

/-- A single fallible creation step: emits its creation events on success and
nothing on failure. -/
def stepIf (ok : Bool) (events : List InitEvent) : List InitEvent × Bool :=
  if ok then (events, true) else ([], false)

/-- The function `create_graphics_pipeline` as an action trace: create the vertex and
fragment shader modules, the pipeline layout and the pipeline, in this order,
stopping at the first failure; only after the pipeline creation succeeded are
the two shader modules destroyed (device.rs lines 603-614). -/
def create_graphics_pipeline_trace (o : InitOutcomes) : List InitEvent × Bool :=
  andThen (stepIf o.vert_ok [InitEvent.create .shaderModule])
    (andThen (stepIf o.frag_ok [InitEvent.create .shaderModule])
      (andThen (stepIf o.layout_ok [InitEvent.create .pipelineLayout])
        (stepIf o.pipeline_ok
          [InitEvent.create .pipeline,
           InitEvent.destroy .shaderModule, InitEvent.destroy .shaderModule])))

/-- The constructor `VulkanGraphicsDevice::new` as an action trace: every fallible step is
sequenced with `?` (no unwinding code exists on any failure path). -/
def new_trace (o : InitOutcomes) : List InitEvent × Bool :=
  andThen (stepIf o.entry_ok [])
    (andThen (stepIf o.instance_ok [InitEvent.create .vkInstance])
      (andThen (stepIf o.messenger_ok [InitEvent.create .debugMessenger])
        (andThen (stepIf o.surface_ok [InitEvent.create .surface])
          (andThen (stepIf o.select_ok [])
            (andThen (stepIf o.device_ok [InitEvent.create .logicalDevice])
              (andThen (stepIf o.swapchain_ok [InitEvent.create .swapchain])
                (andThen (stepIf o.views_ok
                    (List.replicate o.images (InitEvent.create .imageView)))
                  (andThen (stepIf o.render_pass_ok [InitEvent.create .renderPass])
                    (andThen (create_graphics_pipeline_trace o)
                      (andThen (stepIf o.framebuffers_ok
                          (List.replicate o.images (InitEvent.create .framebuffer)))
                        (andThen (stepIf o.pool_ok [InitEvent.create .commandPool])
                          (andThen (stepIf o.buffers_ok
                              (List.replicate MAX_FRAMES_IN_FLIGHT
                                (InitEvent.create .commandBuffer)))
                            (stepIf o.sync_ok
                              ((List.replicate MAX_FRAMES_IN_FLIGHT
                                [InitEvent.create .semaphore,
                                 InitEvent.create .semaphore,
                                 InitEvent.create .fence]).flatten))))))))))))))

/-- All fallible construction steps succeeded. -/
def allOk (o : InitOutcomes) : Bool :=
  o.entry_ok && o.instance_ok && o.messenger_ok && o.surface_ok && o.select_ok &&
  o.device_ok && o.swapchain_ok && o.views_ok && o.render_pass_ok &&
  o.vert_ok && o.frag_ok && o.layout_ok && o.pipeline_ok &&
  o.framebuffers_ok && o.pool_ok && o.buffers_ok && o.sync_ok

/-- Events that `new` may emit without contradicting the amended C6 claim: any
creation, and the shader-module destruction of a completed pipeline build.
Device-idle waits and every other destruction are leaks-to-be-refuted. -/
def benign_init_event (e : InitEvent) : Bool :=
  match e with
  | InitEvent.create _ => true
  | InitEvent.destroy k => k == ResKind.shaderModule
  | InitEvent.waitIdle => false

/-- Whether an event is a destruction. -/
def isDestroyEvent (e : InitEvent) : Bool :=
  match e with
  | InitEvent.destroy _ => true
  | _ => false

lemma andThen_snd (s t : List InitEvent × Bool) : (andThen s t).2 = (s.2 && t.2) := by
  unfold andThen
  by_cases h : s.2 <;> simp [h]

lemma stepIf_snd (ok : Bool) (evs : List InitEvent) : (stepIf ok evs).2 = ok := by
  unfold stepIf
  by_cases h : ok <;> simp [h]

lemma all_andThen {p : InitEvent → Bool} {s t : List InitEvent × Bool}
    (hs : s.1.all p = true) (ht : t.1.all p = true) : (andThen s t).1.all p = true := by
  unfold andThen
  by_cases h : s.2 <;> simp [h, List.all_append, hs, ht]

lemma all_stepIf {p : InitEvent → Bool} {ok : Bool} {evs : List InitEvent}
    (h : evs.all p = true) : (stepIf ok evs).1.all p = true := by
  unfold stepIf
  by_cases hk : ok <;> simp [hk, h]

lemma all_replicate {p : InitEvent → Bool} {x : InitEvent} (n : Nat) (h : p x = true) :
    (List.replicate n x).all p = true := by
  induction n with
  | zero => rfl
  | succ m ih => simp [List.replicate, h, ih]

lemma cgpt_benign (o : InitOutcomes) :
    (create_graphics_pipeline_trace o).1.all benign_init_event = true := by
  unfold create_graphics_pipeline_trace
  exact all_andThen (all_stepIf (by decide))
    (all_andThen (all_stepIf (by decide))
      (all_andThen (all_stepIf (by decide)) (all_stepIf (by decide))))

lemma new_trace_benign (o : InitOutcomes) :
    (new_trace o).1.all benign_init_event = true := by
  unfold new_trace
  exact all_andThen (all_stepIf (by decide))
    (all_andThen (all_stepIf (by decide))
      (all_andThen (all_stepIf (by decide))
        (all_andThen (all_stepIf (by decide))
          (all_andThen (all_stepIf (by decide))
            (all_andThen (all_stepIf (by decide))
              (all_andThen (all_stepIf (by decide))
                (all_andThen (all_stepIf (all_replicate o.images (by decide)))
                  (all_andThen (all_stepIf (by decide))
                    (all_andThen (cgpt_benign o)
                      (all_andThen (all_stepIf (all_replicate o.images (by decide)))
                        (all_andThen (all_stepIf (by decide))
                          (all_andThen (all_stepIf (by decide))
                            (all_stepIf (by decide))))))))))))))

lemma cgpt_snd (o : InitOutcomes) :
    (create_graphics_pipeline_trace o).2 =
      (o.vert_ok && o.frag_ok && o.layout_ok && o.pipeline_ok) := by
  unfold create_graphics_pipeline_trace
  simp [andThen_snd, stepIf_snd, Bool.and_assoc]

lemma new_trace_snd (o : InitOutcomes) : (new_trace o).2 = allOk o := by
  unfold new_trace allOk
  simp [andThen_snd, stepIf_snd, cgpt_snd, Bool.and_assoc]

/-- C6 (amended): construction stops at the first failing step and propagates
its error (it succeeds exactly when every fallible step succeeds), but on
every failure path it performs no device-idle wait and destroys none of the
resources already created (they leak) — the only destructions `new` can ever
emit are the shader-module destructions of a fully successful pipeline build. -/
theorem new_failure_behavior_spec (o : InitOutcomes) :
    ((new_trace o).2 = true ↔ allOk o = true) ∧
    ((new_trace o).2 = false →
      InitEvent.waitIdle ∉ (new_trace o).1 ∧
      ∀ k : ResKind, k ≠ ResKind.shaderModule → InitEvent.destroy k ∉ (new_trace o).1) := by
  have hb := new_trace_benign o
  refine ⟨by rw [new_trace_snd], fun _ => ⟨fun hmem => ?_, fun k hk hmem => ?_⟩⟩
  · have := List.all_eq_true.mp hb _ hmem
    simp [benign_init_event] at this
  · have := List.all_eq_true.mp hb _ hmem
    simp only [benign_init_event, beq_iff_eq] at this
    exact hk this

/-- All construction steps succeed and the device reports three swapchain
images. -/
def all_ok_outcomes : InitOutcomes :=
  ⟨true, true, true, true, true, true, true, true, true,
   true, true, true, true, true, true, true, true, 3⟩

/-- The pipeline-creation call inside `create_graphics_pipeline` fails;
everything before it succeeded. -/
def pipeline_fail_outcomes : InitOutcomes :=
  { all_ok_outcomes with pipeline_ok := false }

/-- C6 counterexample: when pipeline creation fails, the two shader modules
(and the pipeline layout) have already been created, yet the failing run of
`new` contains no destruction at all and no device-idle wait — the claimed
unwind-with-idle-wait does not happen. -/
theorem new_no_unwind_cex :
    (new_trace pipeline_fail_outcomes).2 = false ∧
    InitEvent.create .shaderModule ∈ (new_trace pipeline_fail_outcomes).1 ∧
    InitEvent.create .pipelineLayout ∈ (new_trace pipeline_fail_outcomes).1 ∧
    (new_trace pipeline_fail_outcomes).1.all (fun e => !isDestroyEvent e) = true ∧
    InitEvent.waitIdle ∉ (new_trace pipeline_fail_outcomes).1 := by
  decide

/-- C6 witness: a failure while creating the swapchain (after instance,
messenger, surface and logical device were created) propagates the failure,
waits for nothing and destroys nothing. -/
theorem new_failure_behavior_spec_witness :
    (new_trace { all_ok_outcomes with swapchain_ok := false }).2 = false ∧
    InitEvent.waitIdle ∉ (new_trace { all_ok_outcomes with swapchain_ok := false }).1 ∧
    InitEvent.destroy .logicalDevice ∉
      (new_trace { all_ok_outcomes with swapchain_ok := false }).1 := by
  have h := new_failure_behavior_spec { all_ok_outcomes with swapchain_ok := false }
  have hfail : (new_trace { all_ok_outcomes with swapchain_ok := false }).2 = false := by
    decide
  obtain ⟨hw, hd⟩ := h.2 hfail
  exact ⟨hfail, hw, hd ResKind.logicalDevice (by decide)⟩

/-! ## Instance creation (`create_instance`, device.rs lines 137-172, and
`setup_debug_messenger`, lines 174-198) -/

/-- The Rust build profile. The source contains no
`cfg(debug_assertions)`-style conditional, so nothing below depends on it. -/
inductive BuildMode where
  | debug
  | release
  deriving DecidableEq, Repr

/-- The instance extension list built by `create_instance` (device.rs, lines
148-156): the surface extension, the debug-utils diagnostics extension and,
on linux, the wayland and xlib surface extensions. The list is the same in
every build mode. -/
def instance_extension_names (mode : BuildMode) : List String :=
  let _ := mode
  ["VK_KHR_surface", "VK_EXT_debug_utils", "VK_KHR_wayland_surface", "VK_KHR_xlib_surface"]

/-- The instance layer list built by `create_instance` (device.rs, lines
158-167): the validation layer, in every build mode. -/
def instance_layer_names (mode : BuildMode) : List String :=
  let _ := mode
  ["VK_LAYER_KHRONOS_validation"]

/-- C8 counterexample: a release build still enables the diagnostics
extension and the validation layer, contradicting the claim that release
builds omit them entirely. -/
theorem release_includes_diagnostics_cex :
    "VK_EXT_debug_utils" ∈ instance_extension_names BuildMode.release ∧
    "VK_LAYER_KHRONOS_validation" ∈ instance_layer_names BuildMode.release := by
  exact ⟨by decide, by decide⟩

/-- C8 (amended): in every build mode, debug and release alike, instance
creation enables the diagnostics extension and the validation layer
unconditionally (the lists are build-mode independent), and a successful
construction always installs the diagnostic callback. -/
theorem diagnostics_unconditional_spec (mode : BuildMode) :
    "VK_EXT_debug_utils" ∈ instance_extension_names mode ∧
    "VK_LAYER_KHRONOS_validation" ∈ instance_layer_names mode ∧
    instance_extension_names mode = instance_extension_names BuildMode.debug ∧
    instance_layer_names mode = instance_layer_names BuildMode.debug ∧
    InitEvent.create ResKind.debugMessenger ∈ (new_trace all_ok_outcomes).1 := by
  cases mode <;> exact ⟨by decide, by decide, rfl, rfl, by decide⟩

/-! ## Frame scheduler (`draw_frame` / `wait_idle`)

The launcher (`crates/launcher/src/main.rs`, lines 36-59) calls
`device.draw_frame()` on every redraw and `device.wait_idle()` on close, but
the bodies of these two methods are not among the source files, so the
per-frame protocol below is modelled from the specification. -/

/-- Outcome of the swapchain image acquisition. -/
inductive AcquireResult where
  | acquired (image_index : Nat)
  | outOfDate
  | failed
  deriving DecidableEq, Repr

/-- Outcome of the queue-present call. -/
inductive PresentResult where
  | presented
  | outOfDate
  | suboptimal
  | failed
  deriving DecidableEq, Repr

/-- A per-frame draw error reported to the caller. -/
inductive DrawError where
  | acquireFailed
  | recordFailed
  | submitFailed
  | presentFailed
  deriving DecidableEq, Repr

/-- One action of the per-frame protocol, tagged with the frame slot used. -/
inductive FrameEvent where
  | waitFence (slot : Nat)
  | acquireImage (slot : Nat)
  | recordCommands (slot : Nat)
  | submitQueue (slot : Nat)
  | presentImage (slot : Nat)
  | recreateSwapchain
  deriving DecidableEq, Repr

/-- The mutable frame-scheduler state of the device. -/
structure FrameState where
  frame_counter : Nat
  deriving DecidableEq, Repr

/-- The backend outcomes of one loop tick. -/
structure FrameOutcomes where
  acquire : AcquireResult
  record_ok : Bool
  submit_ok : Bool
  present : PresentResult
  deriving DecidableEq, Repr

/-- Whether the submit step is reached and succeeds in a tick. -/
def submit_succeeded (o : FrameOutcomes) : Bool :=
  (match o.acquire with
   | AcquireResult.acquired _ => true
   | _ => false) && o.record_ok && o.submit_ok

/-- Modelled from the spec: `draw_frame(&mut self) -> Result<(), DrawError>`
is called by the launcher but its body is not among the source files; this
definition follows spec section 4.6 (FrameScheduler per-frame protocol): on
slot `i = frame_counter mod F`, wait on `in_flight[i]`, acquire (out-of-date
triggers recreation and aborts the tick without advancing), record, submit,
present (out-of-date/suboptimal triggers recreation, non-fatally), and
advance `frame_counter` by one exactly when the submit step succeeded. -/
def draw_frame (s : FrameState) (o : FrameOutcomes) :
    FrameState × List FrameEvent × Except DrawError Unit :=
  let i := s.frame_counter % MAX_FRAMES_IN_FLIGHT
  match o.acquire with
  | AcquireResult.outOfDate =>
      (s, [FrameEvent.waitFence i, FrameEvent.acquireImage i,
           FrameEvent.recreateSwapchain], Except.ok ())
  | AcquireResult.failed =>
      (s, [FrameEvent.waitFence i, FrameEvent.acquireImage i],
       Except.error DrawError.acquireFailed)
  | AcquireResult.acquired _ =>
      if !o.record_ok then
        (s, [FrameEvent.waitFence i, FrameEvent.acquireImage i,
             FrameEvent.recordCommands i], Except.error DrawError.recordFailed)
      else if !o.submit_ok then
        (s, [FrameEvent.waitFence i, FrameEvent.acquireImage i,
             FrameEvent.recordCommands i, FrameEvent.submitQueue i],
         Except.error DrawError.submitFailed)
      else
        let s' : FrameState := { frame_counter := s.frame_counter + 1 }
        let base := [FrameEvent.waitFence i, FrameEvent.acquireImage i,
                     FrameEvent.recordCommands i, FrameEvent.submitQueue i,
                     FrameEvent.presentImage i]
        match o.present with
        | PresentResult.presented => (s', base, Except.ok ())
        | PresentResult.outOfDate =>
            (s', base ++ [FrameEvent.recreateSwapchain], Except.ok ())
        | PresentResult.suboptimal =>
            (s', base ++ [FrameEvent.recreateSwapchain], Except.ok ())
        | PresentResult.failed => (s', base, Except.error DrawError.presentFailed)

/-- Modelled from the spec: `wait_idle(&self) -> Result<(), Error>` forwards
the device-idle wait and reports its outcome to the owning application. -/
def wait_idle (device_idle_ok : Bool) : Except String Unit :=
  if device_idle_ok then Except.ok () else Except.error "device wait idle failed"

/-- C7: every tick of `draw_frame` runs on slot `i = frame_counter mod 3`
(its fence wait, and every slot-tagged event, uses that slot); the counter
advances by exactly one precisely when the submit step succeeded, regardless
of the present outcome; and an out-of-date report on acquire triggers
recreation and aborts the tick without advancing the counter and without a
caller-visible error. -/
theorem draw_frame_protocol_spec (s : FrameState) (o : FrameOutcomes) :
    (FrameEvent.waitFence (s.frame_counter % MAX_FRAMES_IN_FLIGHT) ∈
      (draw_frame s o).2.1) ∧
    ((draw_frame s o).1.frame_counter =
      s.frame_counter + (if submit_succeeded o then 1 else 0)) ∧
    (o.acquire = AcquireResult.outOfDate →
      (draw_frame s o).1.frame_counter = s.frame_counter ∧
      FrameEvent.recreateSwapchain ∈ (draw_frame s o).2.1 ∧
      (draw_frame s o).2.2 = Except.ok ()) := by
  rcases o with ⟨acq, rec, sub, pres⟩
  cases acq <;> cases rec <;> cases sub <;> cases pres <;>
    simp [draw_frame, submit_succeeded]

/-- C7 witness: from `frame_counter = 5` (slot 2), a fully successful tick
whose present reports out-of-date still advances the counter to 6, while an
out-of-date acquire leaves it at 5. -/
theorem draw_frame_protocol_spec_witness :
    (draw_frame ⟨5⟩ ⟨AcquireResult.acquired 0, true, true,
        PresentResult.outOfDate⟩).1.frame_counter = 6 ∧
    (draw_frame ⟨5⟩ ⟨AcquireResult.outOfDate, true, true,
        PresentResult.presented⟩).1.frame_counter = 5 ∧
    FrameEvent.waitFence 2 ∈
      (draw_frame ⟨5⟩ ⟨AcquireResult.acquired 0, true, true,
        PresentResult.outOfDate⟩).2.1 := by
  refine ⟨?_, ?_, ?_⟩
  · have h := (draw_frame_protocol_spec ⟨5⟩
      ⟨AcquireResult.acquired 0, true, true, PresentResult.outOfDate⟩).2.1
    simpa using h
  · exact ((draw_frame_protocol_spec ⟨5⟩
      ⟨AcquireResult.outOfDate, true, true, PresentResult.presented⟩).2.2 rfl).1
  · have h := (draw_frame_protocol_spec ⟨5⟩
      ⟨AcquireResult.acquired 0, true, true, PresentResult.outOfDate⟩).1
    simpa using h

/-! ## Physical device selection (`select_physical_device`, device.rs lines
200-249, and `create_logical_device`, lines 251-288) -/

/-- The `vk::PhysicalDeviceType` values distinguished by the selector. -/
inductive PhysicalDeviceType where
  | discreteGpu
  | integratedGpu
  | virtualGpu
  | cpu
  | otherDevice
  deriving DecidableEq, Repr

/-- One queue family's capabilities: whether `QueueFlags::GRAPHICS` is set. -/
structure QueueFamilyProperties where
  graphics : Bool
  deriving DecidableEq, Repr

/-- A physical device: its queried device type and its queue families. The
opaque `vk::PhysicalDevice` handle is identified by the enumeration index. -/
structure PhysDevice where
  deviceType : PhysicalDeviceType
  queueFamilies : List QueueFamilyProperties
  deriving DecidableEq, Repr

/-- Rust `usize::cmp`. -/
def natCmp (m n : Nat) : Ordering :=
  if m < n then Ordering.lt else if m = n then Ordering.eq else Ordering.gt

/-- The `DeviceInfo` record of `select_physical_device`: the enumeration
index and the queried device type the comparator reads. -/
structure DeviceInfo where
  index : Nat
  deviceType : PhysicalDeviceType
  deriving DecidableEq, Repr

/-- The comparator of the `sort_by` in `select_physical_device` (device.rs,
lines 226-243), branch for branch. -/
def deviceCmp (a b : DeviceInfo) : Ordering :=
  if a.deviceType = b.deviceType then natCmp a.index b.index
  else if a.deviceType = PhysicalDeviceType.discreteGpu then Ordering.lt
  else if b.deviceType = PhysicalDeviceType.discreteGpu then Ordering.gt
  else if a.deviceType = PhysicalDeviceType.integratedGpu then Ordering.lt
  else if b.deviceType = PhysicalDeviceType.integratedGpu then Ordering.gt
  else natCmp a.index b.index

/-- Stable insertion into a sorted list: `x` moves past `y` only when the
comparator says `x` is strictly greater. -/
def insertSorted (x : DeviceInfo) : List DeviceInfo → List DeviceInfo
  | [] => [x]
  | y :: ys =>
      if deviceCmp x y = Ordering.gt then y :: insertSorted x ys else x :: y :: ys

/-- Stable sort by `deviceCmp`, modelling Rust's stable `sort_by`. -/
def sortByDeviceCmp : List DeviceInfo → List DeviceInfo
  | [] => []
  | x :: xs => insertSorted x (sortByDeviceCmp xs)

/-- The `DeviceInfo` list built by the enumeration loop, with a running
index. -/
def deviceInfos : List PhysDevice → Nat → List DeviceInfo
  | [], _ => []
  | d :: ds, i => ⟨i, d.deviceType⟩ :: deviceInfos ds (i + 1)

/-- The function `select_physical_device` (device.rs, lines 200-249): error on an empty
enumeration, otherwise sort the `DeviceInfo`s by the comparator and return
the first entry's handle (identified here by its enumeration index). -/
def select_physical_device (devices : List PhysDevice) : Except String Nat :=
  if devices.isEmpty then Except.error "No Vulkan-capable GPU found"
  else
    match (sortByDeviceCmp (deviceInfos devices 0)).head? with
    | some info => Except.ok info.index
    | none => Except.error "No suitable GPU found"

/-- The queue-family scan of `create_logical_device` (device.rs, lines
258-264): the first family advertising graphics capability, in enumeration
order. -/
def graphics_family_index : List QueueFamilyProperties → Nat → Option Nat
  | [], _ => none
  | q :: qs, i => if q.graphics then some i else graphics_family_index qs (i + 1)

/-- The function `create_logical_device` reduced to its fallible queue-family scan: it
returns the chosen graphics queue family index, or fails when the selected
physical device has no graphics-capable family. -/
def create_logical_device (d : PhysDevice) : Except String Nat :=
  match graphics_family_index d.queueFamilies 0 with
  | some i => Except.ok i
  | none => Except.error "No graphics queue family found"

/-- The priority class the comparator implements: discrete before integrated
before everything else (virtual GPU, CPU and other share a class). -/
def rank : PhysicalDeviceType → Nat
  | PhysicalDeviceType.discreteGpu => 0
  | PhysicalDeviceType.integratedGpu => 1
  | _ => 2

lemma deviceCmp_eq (a b : DeviceInfo) :
    deviceCmp a b =
      if rank a.deviceType = rank b.deviceType then natCmp a.index b.index
      else natCmp (rank a.deviceType) (rank b.deviceType) := by
  rcases a with ⟨ia, ta⟩
  rcases b with ⟨ib, tb⟩
  cases ta <;> cases tb <;> rfl

lemma natCmp_gt_iff {m n : Nat} : natCmp m n = Ordering.gt ↔ n < m := by
  unfold natCmp
  split_ifs with h1 h2 <;> simp <;> omega

/-- The non-strict order induced by the comparator. -/
def cmpLe (a b : DeviceInfo) : Prop := deviceCmp a b ≠ Ordering.gt

lemma cmpLe_iff {a b : DeviceInfo} :
    cmpLe a b ↔ (rank a.deviceType < rank b.deviceType ∨
      (rank a.deviceType = rank b.deviceType ∧ a.index ≤ b.index)) := by
  unfold cmpLe
  rw [deviceCmp_eq]
  split_ifs with h <;> simp [natCmp_gt_iff] <;> omega

lemma cmpLe_refl (a : DeviceInfo) : cmpLe a a := by
  rw [cmpLe_iff]; omega

lemma cmpLe_trans {a b c : DeviceInfo} (h1 : cmpLe a b) (h2 : cmpLe b c) : cmpLe a c := by
  rw [cmpLe_iff] at h1 h2 ⊢
  omega

lemma cmpLe_of_gt {a b : DeviceInfo} (h : deviceCmp a b = Ordering.gt) : cmpLe b a := by
  rw [deviceCmp_eq] at h
  rw [cmpLe_iff]
  by_cases hr : rank a.deviceType = rank b.deviceType
  · rw [if_pos hr, natCmp_gt_iff] at h; omega
  · rw [if_neg hr, natCmp_gt_iff] at h; omega

lemma mem_insertSorted {z x : DeviceInfo} :
    ∀ {l : List DeviceInfo}, z ∈ insertSorted x l ↔ z = x ∨ z ∈ l := by
  intro l
  induction l with
  | nil => simp [insertSorted]
  | cons y ys ih =>
    by_cases h : deviceCmp x y = Ordering.gt
    · simp only [insertSorted, if_pos h, List.mem_cons, ih]
      tauto
    · simp only [insertSorted, if_neg h, List.mem_cons]

lemma pairwise_insertSorted {x : DeviceInfo} :
    ∀ {l : List DeviceInfo}, l.Pairwise cmpLe → (insertSorted x l).Pairwise cmpLe := by
  intro l
  induction l with
  | nil => intro _; simp [insertSorted]
  | cons y ys ih =>
    intro h
    rw [List.pairwise_cons] at h
    obtain ⟨hy, hys⟩ := h
    by_cases hc : deviceCmp x y = Ordering.gt
    · simp only [insertSorted, if_pos hc, List.pairwise_cons]
      refine ⟨fun z hz => ?_, ih hys⟩
      rcases mem_insertSorted.mp hz with rfl | hz'
      · exact cmpLe_of_gt hc
      · exact hy z hz'
    · simp only [insertSorted, if_neg hc, List.pairwise_cons, List.mem_cons]
      refine ⟨fun z hz => ?_, hy, hys⟩
      rcases hz with rfl | hz'
      · exact hc
      · exact cmpLe_trans hc (hy z hz')

lemma mem_sortByDeviceCmp {z : DeviceInfo} :
    ∀ {l : List DeviceInfo}, z ∈ sortByDeviceCmp l ↔ z ∈ l := by
  intro l
  induction l with
  | nil => simp [sortByDeviceCmp]
  | cons x xs ih => simp [sortByDeviceCmp, mem_insertSorted, ih]

lemma pairwise_sortByDeviceCmp : ∀ l : List DeviceInfo, (sortByDeviceCmp l).Pairwise cmpLe
  | [] => by simp [sortByDeviceCmp]
  | x :: xs => pairwise_insertSorted (pairwise_sortByDeviceCmp xs)

lemma sorted_head_min {l rest : List DeviceInfo} {a : DeviceInfo}
    (hs : sortByDeviceCmp l = a :: rest) : ∀ z ∈ l, cmpLe a z := by
  intro z hz
  have hp := pairwise_sortByDeviceCmp l
  rw [hs, List.pairwise_cons] at hp
  have hzr : z ∈ a :: rest := by
    rw [← hs, mem_sortByDeviceCmp]; exact hz
  rcases List.mem_cons.mp hzr with rfl | h'
  · exact cmpLe_refl z
  · exact hp.1 z h'

lemma mem_deviceInfos {z : DeviceInfo} :
    ∀ (ds : List PhysDevice) (k : Nat),
      z ∈ deviceInfos ds k ↔
        ∃ j d, ds.get? j = some d ∧ z.index = k + j ∧ z.deviceType = d.deviceType := by
  intro ds
  induction ds with
  | nil => intro k; simp [deviceInfos]
  | cons d ds ih =>
    intro k
    simp only [deviceInfos, List.mem_cons, ih]
    constructor
    · rintro (rfl | ⟨j, d', hj, hidx, htype⟩)
      · exact ⟨0, d, rfl, by simp, rfl⟩
      · exact ⟨j + 1, d', by simpa using hj, by omega, htype⟩
    · rintro ⟨j, d', hj, hidx, htype⟩
      cases j with
      | zero =>
        simp only [List.get?_cons_zero, Option.some_inj] at hj
        subst hj
        left
        rcases z with ⟨zi, zt⟩
        simp only at hidx htype
        simp [hidx, htype]
      | succ j' =>
        right
        exact ⟨j', d', by simpa using hj, by omega, htype⟩

lemma select_eq_ok {devices : List PhysDevice} {i : Nat}
    (h : select_physical_device devices = Except.ok i) :
    ∃ info rest, sortByDeviceCmp (deviceInfos devices 0) = info :: rest ∧
      info.index = i := by
  unfold select_physical_device at h
  by_cases he : devices.isEmpty
  · rw [if_pos he] at h
    exact absurd h (by simp)
  · rw [if_neg he] at h
    cases hl : sortByDeviceCmp (deviceInfos devices 0) with
    | nil =>
      rw [hl] at h
      exact absurd h (by simp)
    | cons a rest =>
      rw [hl] at h
      simp only [List.head?_cons] at h
      refine ⟨a, rest, rfl, ?_⟩
      simpa using h

lemma select_min_key {devices : List PhysDevice} {i : Nat}
    (h : select_physical_device devices = Except.ok i) :
    ∃ d, devices.get? i = some d ∧
      ∀ (j : Nat) (d' : PhysDevice), devices.get? j = some d' →
        rank d.deviceType < rank d'.deviceType ∨
        (rank d.deviceType = rank d'.deviceType ∧ i ≤ j) := by
  obtain ⟨info, rest, hs, hidx⟩ := select_eq_ok h
  have hmem : info ∈ deviceInfos devices 0 := by
    rw [← mem_sortByDeviceCmp, hs]
    exact List.mem_cons_self _ _
  have hmin := sorted_head_min hs
  obtain ⟨j0, d, hd, hidx0, htype⟩ := (mem_deviceInfos devices 0).mp hmem
  have hj0 : j0 = i := by omega
  subst hj0
  refine ⟨d, hd, fun j d' hj => ?_⟩
  have hz : (⟨j, d'.deviceType⟩ : DeviceInfo) ∈ deviceInfos devices 0 :=
    (mem_deviceInfos devices 0).mpr ⟨j, d', hj, by simp, rfl⟩
  have hle := hmin _ hz
  rw [cmpLe_iff] at hle
  simp only at hle
  have hr : rank info.deviceType = rank d.deviceType := by rw [htype]
  rcases hle with hlt | ⟨heq, hle'⟩
  · left; omega
  · right; exact ⟨by omega, by omega⟩

lemma select_isOk {devices : List PhysDevice} (h : devices ≠ []) :
    ∃ i, select_physical_device devices = Except.ok i := by
  obtain ⟨d0, ds, rfl⟩ := List.exists_cons_of_ne_nil h
  have hmem0 : (⟨0, d0.deviceType⟩ : DeviceInfo) ∈
      sortByDeviceCmp (deviceInfos (d0 :: ds) 0) := by
    rw [mem_sortByDeviceCmp]
    simp [deviceInfos]
  cases hs : sortByDeviceCmp (deviceInfos (d0 :: ds) 0) with
  | nil =>
    rw [hs] at hmem0
    simp at hmem0
  | cons a rest =>
    refine ⟨a.index, ?_⟩
    unfold select_physical_device
    rw [if_neg (by simp), hs]
    rfl

lemma graphics_family_index_isSome :
    ∀ (qs : List QueueFamilyProperties) (k : Nat),
      (graphics_family_index qs k).isSome = qs.any (fun q => q.graphics) := by
  intro qs
  induction qs with
  | nil => intro k; rfl
  | cons q qs ih =>
    intro k
    by_cases h : q.graphics <;> simp [graphics_family_index, h, ih]

/-- C1 counterexample: a single enumerated device with no graphics-capable
queue family is selected successfully (`Ok`, index 0) instead of failing with
a no-suitable-device error — selection never inspects queue families; the
graphics check only happens later, in `create_logical_device`. -/
theorem select_ignores_queue_families_cex :
    select_physical_device [⟨PhysicalDeviceType.cpu, [⟨false⟩]⟩] = Except.ok 0 ∧
    ([⟨PhysicalDeviceType.cpu, [⟨false⟩]⟩] : List PhysDevice).all
      (fun d => d.queueFamilies.any (fun q => q.graphics)) = false ∧
    create_logical_device ⟨PhysicalDeviceType.cpu, [⟨false⟩]⟩ =
      Except.error "No graphics queue family found" := by
  exact ⟨rfl, rfl, rfl⟩

/-- C1 (amended): `select_physical_device` is rank-only: it succeeds on every
non-empty enumeration regardless of queue families and fails only on the
empty enumeration; the graphics-capability filter lives in
`create_logical_device`, which succeeds exactly when the selected device has
a graphics-capable queue family. -/
theorem select_rank_only_spec :
    (∀ devices : List PhysDevice, devices ≠ [] →
      ∃ i, select_physical_device devices = Except.ok i) ∧
    select_physical_device [] = Except.error "No Vulkan-capable GPU found" ∧
    (∀ d : PhysDevice,
      (∃ i, create_logical_device d = Except.ok i) ↔
        d.queueFamilies.any (fun q => q.graphics) = true) := by
  refine ⟨fun devices h => select_isOk h, rfl, fun d => ?_⟩
  unfold create_logical_device
  cases hi : graphics_family_index d.queueFamilies 0 with
  | none =>
    have := graphics_family_index_isSome d.queueFamilies 0
    rw [hi] at this
    simp only [Option.isSome_none] at this
    simp [← this]
  | some k =>
    have := graphics_family_index_isSome d.queueFamilies 0
    rw [hi] at this
    simp only [Option.isSome_some] at this
    simp [← this]

/-- C1 witness: a non-empty enumeration is always selected from, and a device
whose second queue family has graphics capability yields a logical device. -/
theorem select_rank_only_spec_witness :
    (∃ i, select_physical_device [⟨PhysicalDeviceType.virtualGpu, []⟩] = Except.ok i) ∧
    (∃ i, create_logical_device ⟨PhysicalDeviceType.cpu, [⟨false⟩, ⟨true⟩]⟩ =
      Except.ok i) := by
  refine ⟨select_rank_only_spec.1 [⟨PhysicalDeviceType.virtualGpu, []⟩] (by decide), ?_⟩
  exact (select_rank_only_spec.2.2 ⟨PhysicalDeviceType.cpu, [⟨false⟩, ⟨true⟩]⟩).mpr
    (by decide)

/-- C2 counterexample: the enumeration `[CPU, virtual GPU]` selects the CPU
(index 0): the comparator puts virtual GPU and CPU in the same class and
falls back to the index tie-break, so the virtual GPU is not preferred. -/
theorem select_virtual_vs_cpu_cex :
    select_physical_device
      [⟨PhysicalDeviceType.cpu, []⟩, ⟨PhysicalDeviceType.virtualGpu, []⟩] =
      Except.ok 0 ∧
    ([⟨PhysicalDeviceType.cpu, []⟩, ⟨PhysicalDeviceType.virtualGpu, []⟩] :
      List PhysDevice).get? 0 = some ⟨PhysicalDeviceType.cpu, []⟩ := by
  exact ⟨rfl, rfl⟩

/-- C2 (amended): selection ranks candidates discrete GPU before integrated
GPU before all remaining classes (virtual GPU, CPU and other share one
class), with the original enumeration index as the tie-break: the selected
index minimizes `(rank, index)` lexicographically over the enumeration, and
an enumeration of same-class candidates selects index 0, the lowest original
index. -/
theorem select_ranking_spec :
    (∀ (devices : List PhysDevice) (i : Nat),
      select_physical_device devices = Except.ok i →
      ∃ d, devices.get? i = some d ∧
        ∀ (j : Nat) (d' : PhysDevice), devices.get? j = some d' →
          rank d.deviceType < rank d'.deviceType ∨
          (rank d.deviceType = rank d'.deviceType ∧ i ≤ j)) ∧
    (∀ (devices : List PhysDevice) (t : PhysicalDeviceType),
      devices ≠ [] → (∀ d ∈ devices, d.deviceType = t) →
      select_physical_device devices = Except.ok 0) := by
  refine ⟨fun devices i h => select_min_key h, fun devices t hne hall => ?_⟩
  obtain ⟨i, hi⟩ := select_isOk hne
  obtain ⟨d, hd, hmin⟩ := select_min_key hi
  obtain ⟨d0, ds, rfl⟩ := List.exists_cons_of_ne_nil hne
  have h0 := hmin 0 d0 rfl
  have hdt : d.deviceType = t := hall d (List.get?_mem hd)
  have hd0t : d0.deviceType = t := hall d0 (List.mem_cons_self _ _)
  have hrr : rank d.deviceType = rank d0.deviceType := by rw [hdt, hd0t]
  have hi0 : i = 0 := by omega
  rwa [hi0] at hi

/-- C2 witness: in `[integrated GPU, discrete GPU]` the selected index 1 (the
discrete GPU) minimizes the priority key, and an all-CPU enumeration selects
index 0. -/
theorem select_ranking_spec_witness :
    (∃ d, ([⟨PhysicalDeviceType.integratedGpu, []⟩,
        ⟨PhysicalDeviceType.discreteGpu, []⟩] : List PhysDevice).get? 1 = some d ∧
      ∀ (j : Nat) (d' : PhysDevice),
        ([⟨PhysicalDeviceType.integratedGpu, []⟩,
          ⟨PhysicalDeviceType.discreteGpu, []⟩] : List PhysDevice).get? j = some d' →
        rank d.deviceType < rank d'.deviceType ∨
        (rank d.deviceType = rank d'.deviceType ∧ 1 ≤ j)) ∧
    select_physical_device [⟨PhysicalDeviceType.cpu, [⟨true⟩]⟩,
      ⟨PhysicalDeviceType.cpu, []⟩] = Except.ok 0 := by
  refine ⟨select_ranking_spec.1 [⟨PhysicalDeviceType.integratedGpu, []⟩,
    ⟨PhysicalDeviceType.discreteGpu, []⟩] 1 rfl, ?_⟩
  exact select_ranking_spec.2 [⟨PhysicalDeviceType.cpu, [⟨true⟩]⟩,
    ⟨PhysicalDeviceType.cpu, []⟩] PhysicalDeviceType.cpu (by decide) (by decide)

end EngineRs
